import Mathlib

/-!
Verification of the a2a-serverless-go core against its design document.

The development shallowly embeds the JSON-RPC codec
(internal/a2a/jsonrpc.go, types from the same package), the task
lifecycle manager (internal/a2a/server.go) and the HTTP router
(internal/handler/handler.go).  Go values of type `interface\x7b\x7d`
holding decoded JSON are modelled by the inductive `Jval`, with the Go
`nil` interface represented by `Jval.jnull` (Go's encoding/json maps a
JSON null and an absent field to the same `nil` interface value).
Storage ports (TaskStore, EventStore, PushNotifier) are modelled by an
explicit `World` state record; repository failures are modelled by
boolean failure flags on the world, mirroring the `error` results the
Go interfaces may return.
-/

namespace A2A

/-- JSON values as decoded by encoding/json into an `interface` value.
Numbers are kept exactly as rationals: the JSON grammar (integer part,
optional fraction, optional exponent) denotes a rational, and no
payload the code exchanges is long enough for float64 rounding to be
observable. -/
inductive Jval where
  | jnull
  | jbool (b : Bool)
  | jnum (q : Rat)
  | jstr (s : String)
  | jarr (elems : List Jval)
  | jobj (fields : List (String × Jval))

/-- Test for the Go `nil` interface value, as in `req.ID == nil`. -/
def Jval.isNull : Jval → Bool
  | Jval.jnull => true
  | _ => false

def quoteChar : Char := Char.ofNat 34

def backslashChar : Char := Char.ofNat 92

def lbraceChar : Char := Char.ofNat 123

def rbraceChar : Char := Char.ofNat 125

def isWsChar (c : Char) : Bool :=
  c = ' ' || c = '\t' || c = '\n' || c = '\r'

def skipWs : List Char → List Char
  | [] => []
  | c :: cs => if isWsChar c then skipWs cs else c :: cs

def isDigitChar (c : Char) : Bool :=
  '0' ≤ c && c ≤ '9'

def takeDigits : List Char → List Char × List Char
  | [] => ([], [])
  | c :: cs =>
    if isDigitChar c then
      let p := takeDigits cs
      (c :: p.1, p.2)
    else ([], c :: cs)

def digitsToNat (ds : List Char) : Nat :=
  ds.foldl (fun acc c => acc * 10 + (c.toNat - 48)) 0

/-- Exponent part of a JSON number literal, after the e/E marker:
optional sign and at least one digit, applied to the mantissa given as
numerator and denominator. -/
def parseExponent (num : Int) (den : Nat) (cs : List Char) :
    Option (Rat × List Char) :=
  let p : Bool × List Char :=
    match cs with
    | '+' :: r => (false, r)
    | '-' :: r => (true, r)
    | _ => (false, cs)
  match takeDigits p.2 with
  | ([], _) => none
  | (es, rest) =>
    let e := digitsToNat es
    some (if p.1 then mkRat num (den * 10 ^ e)
          else mkRat (num * Int.ofNat (10 ^ e)) den, rest)

/-- Rest of a JSON number literal once the integer digits are read:
optional fraction (at least one digit) and optional exponent; the
denoted rational is built as numerator over a power of ten. -/
def parseNumberTail (neg : Bool) (ds : List Char) (cs : List Char) :
    Option (Rat × List Char) :=
  let step1 : Option ((Nat × Nat) × List Char) :=
    match cs with
    | '.' :: cs2 =>
      match takeDigits cs2 with
      | ([], _) => none
      | (fs, rest) =>
        some ((digitsToNat ds * 10 ^ fs.length + digitsToNat fs,
               10 ^ fs.length), rest)
    | _ => some ((digitsToNat ds, 1), cs)
  match step1 with
  | none => none
  | some ((n, d), cs3) =>
    let num : Int := if neg then -(Int.ofNat n) else Int.ofNat n
    match cs3 with
    | 'e' :: cs4 => parseExponent num d cs4
    | 'E' :: cs4 => parseExponent num d cs4
    | _ => some (mkRat num d, cs3)

/-- Body of a JSON string literal, after the opening quote.  Escape
sequences cover the forms appearing in the repository's payloads. -/
def parseStringBody : List Char → Option (String × List Char)
  | [] => none
  | c :: cs =>
    if c = quoteChar then some ("", cs)
    else if c = backslashChar then
      match cs with
      | [] => none
      | e :: cs2 =>
        match parseStringBody cs2 with
        | none => none
        | some (s, rest) =>
          let ec := if e = 'n' then '\n' else if e = 't' then '\t'
                    else if e = 'r' then '\r' else e
          some (String.mk (ec :: s.data), rest)
    else
      match parseStringBody cs with
      | none => none
      | some (s, rest) => some (String.mk (c :: s.data), rest)

mutual

/-- Single JSON value, fuel-bounded recursive descent. -/
def parseVal : Nat → List Char → Option (Jval × List Char)
  | 0, _ => none
  | Nat.succ fuel, input =>
    match skipWs input with
    | [] => none
    | c :: cs =>
      if c = quoteChar then
        match parseStringBody cs with
        | none => none
        | some (s, rest) => some (Jval.jstr s, rest)
      else if c = 'n' then
        match cs with
        | 'u' :: 'l' :: 'l' :: rest => some (Jval.jnull, rest)
        | _ => none
      else if c = 't' then
        match cs with
        | 'r' :: 'u' :: 'e' :: rest => some (Jval.jbool true, rest)
        | _ => none
      else if c = 'f' then
        match cs with
        | 'a' :: 'l' :: 's' :: 'e' :: rest => some (Jval.jbool false, rest)
        | _ => none
      else if c = '-' then
        match takeDigits cs with
        | ([], _) => none
        | (ds, rest) =>
          match parseNumberTail true ds rest with
          | none => none
          | some (q, rest2) => some (Jval.jnum q, rest2)
      else if isDigitChar c then
        match takeDigits (c :: cs) with
        | (ds, rest) =>
          match parseNumberTail false ds rest with
          | none => none
          | some (q, rest2) => some (Jval.jnum q, rest2)
      else if c = '[' then
        match skipWs cs with
        | [] => none
        | d :: rest =>
          if d = ']' then some (Jval.jarr [], rest)
          else
            match parseVal fuel (d :: rest) with
            | none => none
            | some (v, rest2) => parseArrTail fuel [v] rest2
      else if c = lbraceChar then
        match skipWs cs with
        | [] => none
        | d :: rest =>
          if d = rbraceChar then some (Jval.jobj [], rest)
          else
            match parseMember fuel (d :: rest) with
            | none => none
            | some (kv, rest2) => parseObjTail fuel [kv] rest2
      else none

/-- Remaining elements of a JSON array after the first one. -/
def parseArrTail : Nat → List Jval → List Char → Option (Jval × List Char)
  | 0, _, _ => none
  | Nat.succ fuel, acc, cs =>
    match skipWs cs with
    | [] => none
    | c :: rest =>
      if c = ']' then some (Jval.jarr acc.reverse, rest)
      else if c = ',' then
        match parseVal fuel rest with
        | none => none
        | some (v, rest2) => parseArrTail fuel (v :: acc) rest2
      else none

/-- One key/value member of a JSON object. -/
def parseMember : Nat → List Char → Option ((String × Jval) × List Char)
  | 0, _ => none
  | Nat.succ fuel, cs =>
    match skipWs cs with
    | [] => none
    | c :: rest =>
      if c = quoteChar then
        match parseStringBody rest with
        | none => none
        | some (k, rest2) =>
          match skipWs rest2 with
          | [] => none
          | d :: rest3 =>
            if d = ':' then
              match parseVal fuel rest3 with
              | none => none
              | some (v, rest4) => some ((k, v), rest4)
            else none
      else none

/-- Remaining members of a JSON object after the first one. -/
def parseObjTail : Nat → List (String × Jval) → List Char →
    Option (Jval × List Char)
  | 0, _, _ => none
  | Nat.succ fuel, acc, cs =>
    match skipWs cs with
    | [] => none
    | c :: rest =>
      if c = rbraceChar then some (Jval.jobj acc.reverse, rest)
      else if c = ',' then
        match parseMember fuel rest with
        | none => none
        | some (kv, rest2) => parseObjTail fuel (kv :: acc) rest2
      else none

end

/-- Model of a full-document parse by encoding/json: the whole input
must be consumed (up to trailing whitespace). -/
def parseJson (s : String) : Option Jval :=
  match parseVal (s.length + 1) s.data with
  | none => none
  | some (v, rest) => if (skipWs rest).isEmpty then some v else none

/-- Field lookup in a decoded JSON object; encoding/json keeps the last
occurrence of a duplicated key. -/
def jlookup : List (String × Jval) → String → Option Jval
  | [], _ => none
  | (k, v) :: fs, key =>
    match jlookup fs key with
    | some w => some w
    | none => if k = key then some v else none

/-! ## JSON-RPC envelope types (internal/a2a, types section)

Go struct fields of type `interface\x7b\x7d` become `Jval`; the pointer
field `Error *JSONRPCError` becomes `Option JSONRPCError` (a JSON null
and an absent field both yield a nil pointer / nil interface). -/

/-- JSONRPCError from the a2a package. -/
structure JSONRPCError where
  Code : Int
  Message : String
  Data : Jval

/-- JSONRPCRequest from the a2a package. -/
structure JSONRPCRequest where
  JSONRPC : String
  Method : String
  Params : Jval
  ID : Jval

/-- JSONRPCResponse from the a2a package. -/
structure JSONRPCResponse where
  JSONRPC : String
  Result : Jval
  Error : Option JSONRPCError
  ID : Jval

/-! ## encoding/json decoding into the envelope structs

These model `json.Unmarshal(data, &req)` for the three struct shapes
above: a missing field keeps the Go zero value, a JSON null is a no-op
(also keeping the zero value), and a type mismatch makes Unmarshal
fail — a failure the callers in jsonrpc.go report as a parse error. -/

/-- Decode a Go `string` struct field. -/
def goStringField (fs : List (String × Jval)) (key : String) :
    Except String String :=
  match jlookup fs key with
  | none => Except.ok ""
  | some Jval.jnull => Except.ok ""
  | some (Jval.jstr s) => Except.ok s
  | some _ => Except.error ("cannot unmarshal value into string field " ++ key)

/-- Decode a Go `int` struct field; a number with a fractional part is
an Unmarshal error. -/
def goIntField (fs : List (String × Jval)) (key : String) :
    Except String Int :=
  match jlookup fs key with
  | none => Except.ok 0
  | some Jval.jnull => Except.ok 0
  | some (Jval.jnum n) =>
    if n.den = 1 then Except.ok n.num
    else Except.error ("cannot unmarshal value into int field " ++ key)
  | some _ => Except.error ("cannot unmarshal value into int field " ++ key)

/-- Decode a Go `*int` struct field; a number with a fractional part is
an Unmarshal error. -/
def goOptIntField (fs : List (String × Jval)) (key : String) :
    Except String (Option Int) :=
  match jlookup fs key with
  | none => Except.ok none
  | some Jval.jnull => Except.ok none
  | some (Jval.jnum n) =>
    if n.den = 1 then Except.ok (some n.num)
    else Except.error ("cannot unmarshal value into *int field " ++ key)
  | some _ => Except.error ("cannot unmarshal value into *int field " ++ key)

/-- Decode a Go `*string` struct field. -/
def goOptStrField (fs : List (String × Jval)) (key : String) :
    Except String (Option String) :=
  match jlookup fs key with
  | none => Except.ok none
  | some Jval.jnull => Except.ok none
  | some (Jval.jstr s) => Except.ok (some s)
  | some _ => Except.error ("cannot unmarshal value into *string field " ++ key)

/-- Decode a Go `interface` struct field; absent and null both give the
nil interface. -/
def goAnyField (fs : List (String × Jval)) (key : String) : Jval :=
  (jlookup fs key).getD Jval.jnull

/-- Unmarshal a decoded JSON document into JSONRPCRequest; a top-level
JSON null is a no-op success leaving the zero value. -/
def decodeRequest (v : Jval) : Except String JSONRPCRequest :=
  match v with
  | Jval.jnull =>
    Except.ok { JSONRPC := "", Method := "", Params := Jval.jnull,
                ID := Jval.jnull }
  | Jval.jobj fs => do
    let ver ← goStringField fs "jsonrpc"
    let m ← goStringField fs "method"
    Except.ok { JSONRPC := ver, Method := m,
                Params := goAnyField fs "params", ID := goAnyField fs "id" }
  | _ => Except.error "cannot unmarshal value into JSONRPCRequest"

/-- Unmarshal a decoded JSON document into the `*JSONRPCError` field. -/
def decodeErrorField (v : Jval) : Except String (Option JSONRPCError) :=
  match v with
  | Jval.jnull => Except.ok none
  | Jval.jobj fs => do
    let code ← goIntField fs "code"
    let msg ← goStringField fs "message"
    Except.ok (some { Code := code, Message := msg, Data := goAnyField fs "data" })
  | _ => Except.error "cannot unmarshal value into JSONRPCError"

/-- Unmarshal a decoded JSON document into JSONRPCResponse; a top-level
JSON null is a no-op success leaving the zero value. -/
def decodeResponse (v : Jval) : Except String JSONRPCResponse :=
  match v with
  | Jval.jnull =>
    Except.ok { JSONRPC := "", Result := Jval.jnull, Error := none,
                ID := Jval.jnull }
  | Jval.jobj fs => do
    let ver ← goStringField fs "jsonrpc"
    let e ← match jlookup fs "error" with
            | none => Except.ok none
            | some ev => decodeErrorField ev
    Except.ok { JSONRPC := ver, Result := goAnyField fs "result",
                Error := e, ID := goAnyField fs "id" }
  | _ => Except.error "cannot unmarshal value into JSONRPCResponse"

/-- The single `json.Unmarshal(data, &req)` call: syntactic JSON parse
followed by struct decoding; either failure is one Unmarshal error. -/
def unmarshalRequest (data : String) : Except String JSONRPCRequest :=
  match parseJson data with
  | none => Except.error "invalid JSON syntax"
  | some v => decodeRequest v

/-- The single `json.Unmarshal(data, &resp)` call for responses. -/
def unmarshalResponse (data : String) : Except String JSONRPCResponse :=
  match parseJson data with
  | none => Except.error "invalid JSON syntax"
  | some v => decodeResponse v

/-! ## Codec: jsonrpc.go -/

def JSONRPCErrorParseError : Int := -32700

def JSONRPCErrorInvalidRequest : Int := -32600

def JSONRPCErrorMethodNotFound : Int := -32601

def JSONRPCErrorInvalidParams : Int := -32602

def JSONRPCErrorInternalError : Int := -32603

def JSONRPCErrorServerError : Int := -32000

/-- NewJSONRPCParseError from jsonrpc.go. -/
def NewJSONRPCParseError (message : String) : JSONRPCError :=
  { Code := JSONRPCErrorParseError, Message := "Parse error",
    Data := Jval.jstr message }

/-- NewJSONRPCInvalidRequestError from jsonrpc.go. -/
def NewJSONRPCInvalidRequestError (message : String) : JSONRPCError :=
  { Code := JSONRPCErrorInvalidRequest, Message := "Invalid Request",
    Data := Jval.jstr message }

/-- NewJSONRPCMethodNotFoundError from jsonrpc.go. -/
def NewJSONRPCMethodNotFoundError (method : String) : JSONRPCError :=
  { Code := JSONRPCErrorMethodNotFound, Message := "Method not found",
    Data := Jval.jstr ("method " ++ method ++ " not found") }

/-- NewJSONRPCInvalidParamsError from jsonrpc.go. -/
def NewJSONRPCInvalidParamsError (message : String) : JSONRPCError :=
  { Code := JSONRPCErrorInvalidParams, Message := "Invalid params",
    Data := Jval.jstr message }

/-- NewJSONRPCInternalError from jsonrpc.go. -/
def NewJSONRPCInternalError (message : String) : JSONRPCError :=
  { Code := JSONRPCErrorInternalError, Message := "Internal error",
    Data := Jval.jstr message }

/-- NewJSONRPCServerError from jsonrpc.go: a code outside the closed
server-error range [-32099, -32000] is replaced by -32000. -/
def NewJSONRPCServerError (code : Int) (message : String) (data : Jval) :
    JSONRPCError :=
  { Code := if code > -32000 ∨ code < -32099 then JSONRPCErrorServerError
            else code,
    Message := message, Data := data }

/-- ValidateJSONRPCRequest from the a2a package types. -/
def ValidateJSONRPCRequest (req : JSONRPCRequest) : Except String Unit :=
  if req.JSONRPC ≠ "2.0" then Except.error "jsonrpc must be 2.0"
  else if req.Method = "" then Except.error "method is required"
  else if req.ID.isNull then Except.error "id is required"
  else Except.ok ()

/-- ValidateJSONRPCResponse from jsonrpc.go. -/
def ValidateJSONRPCResponse (resp : JSONRPCResponse) : Except String Unit :=
  if resp.JSONRPC ≠ "2.0" then Except.error "jsonrpc must be 2.0"
  else
    let hasResult := !resp.Result.isNull
    let hasError := resp.Error.isSome
    if hasResult && hasError then
      Except.error "response cannot have both result and error"
    else if !hasResult && !hasError then
      Except.error "response must have either result or error"
    else Except.ok ()

/-- ParseJSONRPCRequest from jsonrpc.go. -/
def ParseJSONRPCRequest (data : String) :
    Except JSONRPCError JSONRPCRequest :=
  if data = "" then Except.error (NewJSONRPCParseError "empty request body")
  else
    match unmarshalRequest data with
    | Except.error e => Except.error (NewJSONRPCParseError ("invalid JSON: " ++ e))
    | Except.ok req =>
      match ValidateJSONRPCRequest req with
      | Except.error e => Except.error (NewJSONRPCInvalidRequestError e)
      | Except.ok _ => Except.ok req

/-- ParseJSONRPCResponse from jsonrpc.go. -/
def ParseJSONRPCResponse (data : String) :
    Except JSONRPCError JSONRPCResponse :=
  if data = "" then Except.error (NewJSONRPCParseError "empty response body")
  else
    match unmarshalResponse data with
    | Except.error e => Except.error (NewJSONRPCParseError ("invalid JSON: " ++ e))
    | Except.ok resp =>
      match ValidateJSONRPCResponse resp with
      | Except.error e => Except.error (NewJSONRPCInvalidRequestError e)
      | Except.ok _ => Except.ok resp

/-- Re-encoding of a request by json.Marshal, kept at the level of the
JSON document (text rendering is omitted as irrelevant to the claims). -/
def requestToJval (req : JSONRPCRequest) : Jval :=
  Jval.jobj [("jsonrpc", Jval.jstr req.JSONRPC), ("method", Jval.jstr req.Method),
             ("params", req.Params), ("id", req.ID)]

/-- Re-encoding of an error object by json.Marshal. -/
def errorToJval (e : JSONRPCError) : Jval :=
  Jval.jobj [("code", Jval.jnum (e.Code : Rat)),
             ("message", Jval.jstr e.Message),
             ("data", e.Data)]

/-- Re-encoding of a response by json.Marshal; omitempty drops a nil
result and a nil error pointer. -/
def responseToJval (resp : JSONRPCResponse) : Jval :=
  Jval.jobj
    ([("jsonrpc", Jval.jstr resp.JSONRPC)]
      ++ (if resp.Result.isNull then [] else [("result", resp.Result)])
      ++ (match resp.Error with
          | none => []
          | some e => [("error", errorToJval e)])
      ++ [("id", resp.ID)])

/-- SerializeJSONRPCRequest from jsonrpc.go: re-validate, then marshal. -/
def SerializeJSONRPCRequest (req : JSONRPCRequest) :
    Except JSONRPCError Jval :=
  match ValidateJSONRPCRequest req with
  | Except.error e => Except.error (NewJSONRPCInvalidRequestError e)
  | Except.ok _ => Except.ok (requestToJval req)

/-- SerializeJSONRPCResponse from jsonrpc.go: re-validate, then marshal. -/
def SerializeJSONRPCResponse (resp : JSONRPCResponse) :
    Except JSONRPCError Jval :=
  match ValidateJSONRPCResponse resp with
  | Except.error e => Except.error (NewJSONRPCInvalidRequestError e)
  | Except.ok _ => Except.ok (responseToJval resp)

/-- ExtractRequestID from jsonrpc.go: best-effort unmarshal into a
struct holding only the `id` field; any Unmarshal failure gives nil. -/
def ExtractRequestID (data : String) : Jval :=
  match parseJson data with
  | none => Jval.jnull
  | some (Jval.jobj fs) => (jlookup fs "id").getD Jval.jnull
  | some Jval.jnull => Jval.jnull
  | some _ => Jval.jnull

/-- NewJSONRPCRequest from the a2a package types. -/
def NewJSONRPCRequest (method : String) (params : Jval) (id : Jval) :
    JSONRPCRequest :=
  { JSONRPC := "2.0", Method := method, Params := params, ID := id }

/-- NewJSONRPCResponse from the a2a package types: the error pointer is
left nil; the result is whatever interface value the caller supplied,
possibly nil. -/
def NewJSONRPCResponse (result : Jval) (id : Jval) : JSONRPCResponse :=
  { JSONRPC := "2.0", Result := result, Error := none, ID := id }

/-- NewJSONRPCErrorResponse from the a2a package types. -/
def NewJSONRPCErrorResponse (code : Int) (message : String) (data : Jval)
    (id : Jval) : JSONRPCResponse :=
  { JSONRPC := "2.0", Result := Jval.jnull,
    Error := some { Code := code, Message := message, Data := data },
    ID := id }

/-! ## Task lifecycle data model (a2a SDK types used by server.go) -/

/-- Task lifecycle states exercised by the implementation. -/
inductive TaskState where
  | submitted
  | working
  | canceled
deriving DecidableEq

/-- a2a.TaskStatus: state plus optional timestamp (`*time.Time`,
modelled as nanoseconds). -/
structure TaskStatus where
  State : TaskState
  Timestamp : Option Nat
deriving DecidableEq

/-- a2a.Message: one turn of the task conversation; the content parts
are opaque to the core and kept as a JSON value. -/
structure Message where
  MessageID : String
  TaskID : Option String
  Role : String
  Parts : Jval

/-- a2a.Task as used by server.go. -/
structure Task where
  ID : String
  ContextID : String
  Kind : String
  History : List Message
  Status : TaskStatus
  Metadata : List (String × Jval)

/-- a2a.TaskStatusUpdateEvent as built by OnCancelTask. -/
structure TaskStatusUpdateEvent where
  Kind : String
  TaskID : String
  ContextID : String
  Status : TaskStatus
  Final : Bool

/-- a2a.TaskQueryParams for tasks/get. -/
structure TaskQueryParams where
  ID : String
  HistoryLength : Option Int

/-- a2a.TaskIDParams for tasks/cancel. -/
structure TaskIDParams where
  ID : String

/-- a2a.MessageSendParams for message/send. -/
structure MessageSendParams where
  Message : Message

/-! ## Storage ports as explicit state

TaskStore, EventStore and PushNotifier are interfaces whose concrete
implementations live outside the core.  They are modelled as one
`World` record: an association list of stored tasks, the append-only
event log, the log of notifications handed to the sink, and failure
flags standing for the `error` results each port may return. -/

structure World where
  tasks : List (String × Task)
  events : List TaskStatusUpdateEvent
  notified : List TaskStatusUpdateEvent
  saveTaskFails : Bool
  saveEventFails : Bool
  notifyFails : Bool

/-- Lookup in the task store. -/
def storeGet : List (String × Task) → String → Option Task
  | [], _ => none
  | (k, v) :: rest, key => if k = key then some v else storeGet rest key

/-- Upsert into the task store (key-value semantics of the repository). -/
def storePut : List (String × Task) → String → Task → List (String × Task)
  | [], key, t => [(key, t)]
  | (k, v) :: rest, key, t =>
    if k = key then (key, t) :: rest else (k, v) :: storePut rest key t

/-- TaskStore.GetTask. -/
def getTask (w : World) (taskID : String) : Except String Task :=
  match storeGet w.tasks taskID with
  | some t => Except.ok t
  | none => Except.error ("task not found: " ++ taskID)

/-- TaskStore.SaveTask. -/
def saveTask (w : World) (t : Task) : Except String World :=
  if w.saveTaskFails then Except.error "failed to save task to store"
  else Except.ok { w with tasks := storePut w.tasks t.ID t }

/-- EventStore.SaveEvent. -/
def saveEvent (w : World) (ev : TaskStatusUpdateEvent) : Except String World :=
  if w.saveEventFails then Except.error "failed to save event to store"
  else Except.ok { w with events := w.events ++ [ev] }

/-- PushNotifier.SendNotification.  Defined to complete the port model;
server.go never invokes it. -/
def sendNotification (w : World) (ev : TaskStatusUpdateEvent) :
    Except String World :=
  if w.notifyFails then Except.error "failed to send notification"
  else Except.ok { w with notified := w.notified ++ [ev] }

/-! ## Task Lifecycle Manager: server.go -/

/-- OnGetTask from server.go: load the task and, when a positive
history limit smaller than the history is requested, return a copy
whose history holds only the most recent messages.  No store write. -/
def OnGetTask (query : TaskQueryParams) (w : World) :
    Except String (Task × World) :=
  match getTask w query.ID with
  | Except.error e =>
    Except.error ("failed to get task " ++ query.ID ++ ": " ++ e)
  | Except.ok task =>
    let task :=
      match query.HistoryLength with
      | some historyLen =>
        if historyLen > 0 then
          if (task.History.length : Int) > historyLen then
            { task with History :=
                task.History.drop (task.History.length - historyLen.toNat) }
          else task
        else task
      | none => task
    Except.ok (task, w)

/-- OnCancelTask from server.go: load, set status to canceled, persist
the task, then best-effort append a final status-update event (an event
store failure is logged and does not fail the request). -/
def OnCancelTask (now : Nat) (id : TaskIDParams) (w : World) :
    Except String (Task × World) :=
  match getTask w id.ID with
  | Except.error e =>
    Except.error ("failed to get task " ++ id.ID ++ ": " ++ e)
  | Except.ok task0 =>
    let task := { task0 with
      Status := { State := TaskState.canceled, Timestamp := some now } }
    match saveTask w task with
    | Except.error e =>
      Except.error ("failed to save canceled task " ++ id.ID ++ ": " ++ e)
    | Except.ok w2 =>
      let statusEvent : TaskStatusUpdateEvent :=
        { Kind := "status-update", TaskID := task.ID,
          ContextID := task.ContextID, Status := task.Status, Final := true }
      match saveEvent w2 statusEvent with
      | Except.error _ => Except.ok (task, w2)
      | Except.ok w3 => Except.ok (task, w3)

/-- generateContextID from server.go, at a given clock reading. -/
def generateContextID (now : Nat) : String :=
  "ctx_" ++ toString now

/-- The fresh task literal synthesized by OnSendMessage when the
message carries no task reference. -/
def newTaskAt (now : Nat) (ctxNow : Nat) : Task :=
  { ID := "task_" ++ toString now, ContextID := generateContextID ctxNow,
    Kind := "task", History := [],
    Status := { State := TaskState.submitted, Timestamp := some now },
    Metadata := [] }

/-- Tail of OnSendMessage shared by both branches: append the inbound
message to the history, advance the status to working, persist. -/
def sendMessageFinish (statusNow : Nat) (message : MessageSendParams)
    (task : Task) (w : World) : Except String (Task × World) :=
  let task := { task with History := task.History ++ [message.Message] }
  let task := { task with
    Status := { State := TaskState.working, Timestamp := some statusNow } }
  match saveTask w task with
  | Except.error e => Except.error ("failed to save task: " ++ e)
  | Except.ok w2 => Except.ok (task, w2)

/-- OnSendMessage from server.go.  The three clock readings the Go code
takes (task creation, context-ID generation, status advance) are passed
explicitly. -/
def OnSendMessage (taskNow ctxNow statusNow : Nat)
    (message : MessageSendParams) (w : World) :
    Except String (Task × World) :=
  match message.Message.TaskID with
  | some tid =>
    match getTask w tid with
    | Except.error e =>
      Except.error ("failed to get existing task " ++ tid ++ ": " ++ e)
    | Except.ok task => sendMessageFinish statusNow message task w
  | none => sendMessageFinish statusNow message (newTaskAt taskNow ctxNow) w

/-! ## Router: internal/handler/handler.go -/

/-- The part of the HTTP response the JSON-RPC claims are about; the
source serializes `body` with json.Marshal before returning it. -/
structure HandlerResponse where
  status : Nat
  body : JSONRPCResponse

/-- The clock readings a dispatched operation may consume. -/
structure Clock where
  taskNow : Nat
  ctxNow : Nat
  statusNow : Nat
  cancelNow : Nat

/-- handleJSONRPCSuccess from handler.go. -/
def handleJSONRPCSuccess (result : Jval) (id : Jval) : HandlerResponse :=
  { status := 200, body := NewJSONRPCResponse result id }

/-- handleJSONRPCError from handler.go: JSON-RPC failures still travel
on an HTTP 200 response. -/
def handleJSONRPCError (code : Int) (message : String) (data : Jval)
    (id : Jval) : HandlerResponse :=
  { status := 200, body := NewJSONRPCErrorResponse code message data id }

/-- Decoding of tasks/get params into a2a.TaskQueryParams
(fields `id` and `historyLength`). -/
def decodeTaskQueryParams (v : Jval) : Except String TaskQueryParams :=
  match v with
  | Jval.jnull => Except.ok { ID := "", HistoryLength := none }
  | Jval.jobj fs => do
    let id ← goStringField fs "id"
    let hl ← goOptIntField fs "historyLength"
    Except.ok { ID := id, HistoryLength := hl }
  | _ => Except.error "cannot unmarshal params into TaskQueryParams"

/-- Decoding of tasks/cancel params into a2a.TaskIDParams. -/
def decodeTaskIDParams (v : Jval) : Except String TaskIDParams :=
  match v with
  | Jval.jnull => Except.ok { ID := "" }
  | Jval.jobj fs => do
    let id ← goStringField fs "id"
    Except.ok { ID := id }
  | _ => Except.error "cannot unmarshal params into TaskIDParams"

/-- Decoding of a JSON object into a2a.Message. -/
def decodeMessage (v : Jval) : Except String Message :=
  match v with
  | Jval.jnull =>
    Except.ok { MessageID := "", TaskID := none, Role := "",
                Parts := Jval.jnull }
  | Jval.jobj fs => do
    let mid ← goStringField fs "messageId"
    let tid ← goOptStrField fs "taskId"
    let role ← goStringField fs "role"
    Except.ok { MessageID := mid, TaskID := tid, Role := role,
                Parts := goAnyField fs "parts" }
  | _ => Except.error "cannot unmarshal value into Message"

/-- The zero value of a2a.Message. -/
def emptyMessage : Message :=
  { MessageID := "", TaskID := none, Role := "", Parts := Jval.jnull }

/-- Decoding of message/send params into a2a.MessageSendParams. -/
def decodeMessageSendParams (v : Jval) : Except String MessageSendParams :=
  match v with
  | Jval.jnull => Except.ok { Message := emptyMessage }
  | Jval.jobj fs => do
    let msg ← match jlookup fs "message" with
              | none => Except.ok emptyMessage
              | some Jval.jnull => Except.ok emptyMessage
              | some mv => decodeMessage mv
    Except.ok { Message := msg }
  | _ => Except.error "cannot unmarshal params into MessageSendParams"

/-- Params decoding step of handleGetTask: the zero value is kept when
the request carried no params. -/
def getTaskParamsOf (req : JSONRPCRequest) : Except String TaskQueryParams :=
  if req.Params.isNull then Except.ok { ID := "", HistoryLength := none }
  else decodeTaskQueryParams req.Params

/-- Params decoding step of handleCancelTask. -/
def cancelParamsOf (req : JSONRPCRequest) : Except String TaskIDParams :=
  if req.Params.isNull then Except.ok { ID := "" }
  else decodeTaskIDParams req.Params

/-- Params decoding step of handleSendMessage. -/
def sendParamsOf (req : JSONRPCRequest) : Except String MessageSendParams :=
  if req.Params.isNull then Except.ok { Message := emptyMessage }
  else decodeMessageSendParams req.Params

/-- json.Marshal image of a message, for success bodies. -/
def messageToJval (m : Message) : Jval :=
  Jval.jobj [("messageId", Jval.jstr m.MessageID),
             ("taskId", (m.TaskID.map Jval.jstr).getD Jval.jnull),
             ("role", Jval.jstr m.Role), ("parts", m.Parts)]

/-- json.Marshal image of a task state. -/
def stateToString : TaskState → String
  | TaskState.submitted => "submitted"
  | TaskState.working => "working"
  | TaskState.canceled => "canceled"

/-- json.Marshal image of a task status. -/
def statusToJval (st : TaskStatus) : Jval :=
  Jval.jobj [("state", Jval.jstr (stateToString st.State)),
             ("timestamp",
               (st.Timestamp.map fun n => Jval.jnum (n : Rat)).getD
                 Jval.jnull)]

/-- json.Marshal image of a task, for success bodies. -/
def taskToJval (t : Task) : Jval :=
  Jval.jobj [("id", Jval.jstr t.ID), ("contextId", Jval.jstr t.ContextID),
             ("kind", Jval.jstr t.Kind),
             ("history", Jval.jarr (t.History.map messageToJval)),
             ("status", statusToJval t.Status),
             ("metadata", Jval.jobj t.Metadata)]

/-- handleGetTask from handler.go. -/
def handleGetTask (req : JSONRPCRequest) (w : World) :
    HandlerResponse × World :=
  match getTaskParamsOf req with
  | Except.error e =>
    (handleJSONRPCError (-32602) "Invalid params" (Jval.jstr e) req.ID, w)
  | Except.ok params =>
    match OnGetTask params w with
    | Except.error e =>
      (handleJSONRPCError (-32000) "Server error" (Jval.jstr e) req.ID, w)
    | Except.ok (task, w2) => (handleJSONRPCSuccess (taskToJval task) req.ID, w2)

/-- handleCancelTask from handler.go. -/
def handleCancelTask (clk : Clock) (req : JSONRPCRequest) (w : World) :
    HandlerResponse × World :=
  match cancelParamsOf req with
  | Except.error e =>
    (handleJSONRPCError (-32602) "Invalid params" (Jval.jstr e) req.ID, w)
  | Except.ok params =>
    match OnCancelTask clk.cancelNow params w with
    | Except.error e =>
      (handleJSONRPCError (-32000) "Server error" (Jval.jstr e) req.ID, w)
    | Except.ok (task, w2) => (handleJSONRPCSuccess (taskToJval task) req.ID, w2)

/-- handleSendMessage from handler.go. -/
def handleSendMessage (clk : Clock) (req : JSONRPCRequest) (w : World) :
    HandlerResponse × World :=
  match sendParamsOf req with
  | Except.error e =>
    (handleJSONRPCError (-32602) "Invalid params" (Jval.jstr e) req.ID, w)
  | Except.ok params =>
    match OnSendMessage clk.taskNow clk.ctxNow clk.statusNow params w with
    | Except.error e =>
      (handleJSONRPCError (-32000) "Server error" (Jval.jstr e) req.ID, w)
    | Except.ok (task, w2) => (handleJSONRPCSuccess (taskToJval task) req.ID, w2)

/-- handleJSONRPC from handler.go: unmarshal the body, validate the
envelope, then dispatch on the method name. -/
def handleJSONRPC (clk : Clock) (body : String) (w : World) :
    HandlerResponse × World :=
  match unmarshalRequest body with
  | Except.error _ =>
    (handleJSONRPCError (-32700) "Parse error" Jval.jnull Jval.jnull, w)
  | Except.ok req =>
    match ValidateJSONRPCRequest req with
    | Except.error e =>
      (handleJSONRPCError (-32600) "Invalid Request" (Jval.jstr e) req.ID, w)
    | Except.ok _ =>
      if req.Method = "tasks/get" then handleGetTask req w
      else if req.Method = "tasks/cancel" then handleCancelTask clk req w
      else if req.Method = "message/send" then handleSendMessage clk req w
      else
        (handleJSONRPCError (-32601) "Method not found"
          (Jval.jstr req.Method) req.ID, w)

/-! ## Concrete sample data for witnesses -/

/-- Sample message number `i` of a stored conversation. -/
def mkMsg (i : Nat) : Message :=
  { MessageID := "m" ++ toString i, TaskID := some "t1", Role := "user",
    Parts := Jval.jnull }

/-- Sample stored task with a five-message history. -/
def sampleTask : Task :=
  { ID := "t1", ContextID := "c1", Kind := "task",
    History := [mkMsg 1, mkMsg 2, mkMsg 3, mkMsg 4, mkMsg 5],
    Status := { State := TaskState.working, Timestamp := some 1 },
    Metadata := [] }

/-- Sample world holding `sampleTask` with healthy storage ports. -/
def sampleWorld : World :=
  { tasks := [("t1", sampleTask)], events := [], notified := [],
    saveTaskFails := false, saveEventFails := false, notifyFails := false }

/-- Sample world with an empty task store and healthy storage ports. -/
def emptyWorld : World :=
  { tasks := [], events := [], notified := [],
    saveTaskFails := false, saveEventFails := false, notifyFails := false }

/-- Message-send params carrying no task reference. -/
def freshParams : MessageSendParams :=
  { Message := { MessageID := "m1", TaskID := none, Role := "user",
                 Parts := Jval.jnull } }

/-- Clock readings for router witnesses. -/
def sampleClock : Clock :=
  { taskNow := 0, ctxNow := 0, statusNow := 0, cancelNow := 0 }

/-- Request decoded from the unknown-method witness body. -/
def unknownMethodReq : JSONRPCRequest :=
  { JSONRPC := "2.0", Method := "tasks/unknown", Params := Jval.jnull,
    ID := Jval.jnum 1 }

/-! ## Helper lemmas -/

theorem Jval.isNull_iff (v : Jval) : v.isNull = true ↔ v = Jval.jnull := by
  cases v <;> simp [Jval.isNull]

theorem Jval.isNull_false_iff (v : Jval) :
    v.isNull = false ↔ v ≠ Jval.jnull := by
  cases v <;> simp [Jval.isNull]

theorem storeGet_storePut_self (l : List (String × Task)) (k : String)
    (t : Task) : storeGet (storePut l k t) k = some t := by
  induction l with
  | nil => simp [storePut, storeGet]
  | cons hd tl ih =>
    by_cases h : hd.1 = k <;> simp [storePut, storeGet, h, ih]

theorem storeGet_storePut_ne (l : List (String × Task)) (k key : String)
    (t : Task) (h : k ≠ key) :
    storeGet (storePut l k t) key = storeGet l key := by
  induction l with
  | nil => simp [storePut, storeGet, h]
  | cons hd tl ih =>
    by_cases h2 : hd.1 = k
    · simp [storePut, storeGet, h2, h]
    · by_cases h3 : hd.1 = key <;>
        simp [storePut, storeGet, h2, h3, ih, Ne.symm h]

/-! ## Claim theorems -/

/-- C8: NewJSONRPCServerError always lands in the closed range
[-32099, -32000]; a code inside the range is kept, a code outside it is
replaced by -32000, and the message and data are preserved either way. -/
theorem c8_server_error_range (code : Int) (message : String) (data : Jval) :
    (-32099 ≤ (NewJSONRPCServerError code message data).Code ∧
      (NewJSONRPCServerError code message data).Code ≤ -32000) ∧
    ((-32099 ≤ code ∧ code ≤ -32000) →
      (NewJSONRPCServerError code message data).Code = code) ∧
    ((code < -32099 ∨ -32000 < code) →
      (NewJSONRPCServerError code message data).Code = -32000) ∧
    (NewJSONRPCServerError code message data).Message = message ∧
    (NewJSONRPCServerError code message data).Data = data := by
  unfold NewJSONRPCServerError JSONRPCErrorServerError
  refine ⟨?_, ?_, ?_, rfl, rfl⟩
  · dsimp only
    split <;> omega
  · intro h
    dsimp only
    split <;> omega
  · intro h
    dsimp only
    split <;> omega

theorem c8_witness :
    (NewJSONRPCServerError (-5) "boom" Jval.jnull).Code = -32000 ∧
    (NewJSONRPCServerError (-32050) "boom" Jval.jnull).Code = -32050 := by
  constructor
  · exact (c8_server_error_range (-5) "boom" Jval.jnull).2.2.1
      (Or.inr (by norm_num))
  · exact (c8_server_error_range (-32050) "boom" Jval.jnull).2.1
      ⟨by norm_num, by norm_num⟩

/-- C9: ExtractRequestID is total — every input yields a value, with nil
for any Unmarshal failure or absent id, and the id field of any
top-level JSON object otherwise; concretely it returns nil on the empty
input, on truncated JSON and on valid JSON without an id, and returns
"x" on a payload carrying id "x" that the strict request parser itself
rejects. -/
theorem c9_extract_id_resilient :
    (∀ data : String, ExtractRequestID data = Jval.jnull ∨
      ∃ fs, parseJson data = some (Jval.jobj fs) ∧
        ExtractRequestID data = (jlookup fs "id").getD Jval.jnull) ∧
    ExtractRequestID "" = Jval.jnull ∧
    ExtractRequestID "\x7b\"jsonrpc\":\"2.0\",\"method\":\"test\",\"id\":123" =
      Jval.jnull ∧
    ExtractRequestID "\x7b\"jsonrpc\":\"2.0\",\"method\":\"test\"\x7d" =
      Jval.jnull ∧
    ExtractRequestID "\x7b\"id\":\"x\",\"jsonrpc\":1,\"method\":\"\"\x7d" =
      Jval.jstr "x" ∧
    ParseJSONRPCRequest "\x7b\"id\":\"x\",\"jsonrpc\":1,\"method\":\"\"\x7d" =
      Except.error (NewJSONRPCParseError
        "invalid JSON: cannot unmarshal value into string field jsonrpc") := by
  refine ⟨?_, rfl, rfl, rfl, rfl, rfl⟩
  intro data
  unfold ExtractRequestID
  match h : parseJson data with
  | none => exact Or.inl rfl
  | some (Jval.jobj fs) => exact Or.inr ⟨fs, rfl, rfl⟩
  | some Jval.jnull => exact Or.inl rfl
  | some (Jval.jbool b) => exact Or.inl rfl
  | some (Jval.jnum n) => exact Or.inl rfl
  | some (Jval.jstr s) => exact Or.inl rfl
  | some (Jval.jarr xs) => exact Or.inl rfl

/-- C1 counterexample: the claim says every response built by
NewJSONRPCResponse satisfies the exactly-one-of-result/error invariant,
but building one from a nil result yields a response with neither
result nor error, which validation rejects. -/
theorem c1_counterexample :
    (NewJSONRPCResponse Jval.jnull (Jval.jnum 1)).Result = Jval.jnull ∧
    (NewJSONRPCResponse Jval.jnull (Jval.jnum 1)).Error = none ∧
    ValidateJSONRPCResponse (NewJSONRPCResponse Jval.jnull (Jval.jnum 1)) =
      Except.error "response must have either result or error" :=
  ⟨rfl, rfl, rfl⟩

/-- C1 (amended): ValidateJSONRPCResponse accepts exactly the responses
with version "2.0" and exactly one of result/error set; every violation
surfaced through ParseJSONRPCResponse or SerializeJSONRPCResponse is an
InvalidRequest error (code -32600); every response built by
NewJSONRPCErrorResponse satisfies the invariant, and every response
built by NewJSONRPCResponse from a non-nil result does. -/
theorem c1_response_cardinality :
    (∀ resp : JSONRPCResponse,
      ValidateJSONRPCResponse resp = Except.ok () ↔
        (resp.JSONRPC = "2.0" ∧
          ((resp.Result ≠ Jval.jnull ∧ resp.Error = none) ∨
           (resp.Result = Jval.jnull ∧ resp.Error ≠ none)))) ∧
    (∀ resp e, ValidateJSONRPCResponse resp = Except.error e →
      (∀ data, unmarshalResponse data = Except.ok resp →
        ParseJSONRPCResponse data =
          Except.error (NewJSONRPCInvalidRequestError e)) ∧
      SerializeJSONRPCResponse resp =
        Except.error (NewJSONRPCInvalidRequestError e) ∧
      (NewJSONRPCInvalidRequestError e).Code = -32600) ∧
    (∀ code message data id,
      ValidateJSONRPCResponse (NewJSONRPCErrorResponse code message data id) =
        Except.ok ()) ∧
    (∀ result id, result ≠ Jval.jnull →
      ValidateJSONRPCResponse (NewJSONRPCResponse result id) =
        Except.ok ()) := by
  have hval : ∀ resp : JSONRPCResponse,
      ValidateJSONRPCResponse resp = Except.ok () ↔
        (resp.JSONRPC = "2.0" ∧
          ((resp.Result ≠ Jval.jnull ∧ resp.Error = none) ∨
           (resp.Result = Jval.jnull ∧ resp.Error ≠ none))) := by
    intro resp
    by_cases hv : resp.JSONRPC = "2.0"
    · cases hr : resp.Result.isNull
      · have hne : resp.Result ≠ Jval.jnull := (Jval.isNull_false_iff _).mp hr
        cases he : resp.Error with
        | none => simp [ValidateJSONRPCResponse, hv, hr, he, hne]
        | some err => simp [ValidateJSONRPCResponse, hv, hr, he, hne]
      · have hrn : resp.Result = Jval.jnull := (Jval.isNull_iff _).mp hr
        cases he : resp.Error with
        | none => simp [ValidateJSONRPCResponse, hv, hr, he, hrn, Jval.isNull]
        | some err => simp [ValidateJSONRPCResponse, hv, hr, he, hrn, Jval.isNull]
    · simp [ValidateJSONRPCResponse, hv]
  refine ⟨hval, ?_, ?_, ?_⟩
  · intro resp e herr
    have hne : ∀ data, unmarshalResponse data = Except.ok resp → data ≠ "" := by
      intro data hu h
      subst h
      rw [show unmarshalResponse "" = Except.error "invalid JSON syntax" from rfl]
        at hu
      exact nomatch hu
    refine ⟨?_, ?_, rfl⟩
    · intro data hu
      unfold ParseJSONRPCResponse
      rw [if_neg (hne data hu), hu]
      simp [herr]
    · unfold SerializeJSONRPCResponse
      rw [herr]
  · intro code message data id
    rw [hval]
    exact ⟨rfl, Or.inr ⟨rfl, by simp [NewJSONRPCErrorResponse]⟩⟩
  · intro result id h
    rw [hval]
    exact ⟨rfl, Or.inl ⟨h, rfl⟩⟩

theorem c1_witness :
    ValidateJSONRPCResponse (NewJSONRPCResponse (Jval.jstr "ok") (Jval.jnum 1)) =
      Except.ok () ∧
    ValidateJSONRPCResponse
        (NewJSONRPCErrorResponse (-32601) "Method not found" Jval.jnull
          (Jval.jnum 1)) =
      Except.ok () ∧
    ParseJSONRPCResponse "\x7b\"jsonrpc\":\"1.0\",\"result\":\"r\",\"id\":1\x7d" =
      Except.error (NewJSONRPCInvalidRequestError "jsonrpc must be 2.0") := by
  refine ⟨?_, ?_, ?_⟩
  · exact c1_response_cardinality.2.2.2 (Jval.jstr "ok") (Jval.jnum 1)
      (fun h => Jval.noConfusion h)
  · exact c1_response_cardinality.2.2.1 (-32601) "Method not found"
      Jval.jnull (Jval.jnum 1)
  · exact (c1_response_cardinality.2.1
      { JSONRPC := "1.0", Result := Jval.jstr "r", Error := none,
        ID := Jval.jnum 1 }
      "jsonrpc must be 2.0" rfl).1 _ rfl

/-- C5 counterexample: the claim says a request whose id field is an
explicit JSON null is valid, but the decoder maps a null id to the nil
interface exactly like a missing id, so ParseJSONRPCRequest rejects it
with InvalidRequest. -/
theorem c5_counterexample :
    ParseJSONRPCRequest
        "\x7b\"jsonrpc\":\"2.0\",\"method\":\"test\",\"id\":null\x7d" =
      Except.error (NewJSONRPCInvalidRequestError "id is required") := rfl

/-- C5 (amended): ParseJSONRPCRequest fails with ParseError (-32700)
exactly on empty input or input json.Unmarshal rejects, and with
InvalidRequest (-32600) exactly when the version is not "2.0", the
method is empty, or the decoded id is nil — which happens both when the
id field is missing and when it is an explicit JSON null, since the
decoder cannot distinguish the two.  On the boundary: a top-level JSON
null body is an Unmarshal no-op success and therefore fails validation
with InvalidRequest, not ParseError, and a fractional id such as 1.5
decodes to a non-nil id and is accepted. -/
theorem c5_parse_request_taxonomy :
    (ParseJSONRPCRequest "" =
      Except.error (NewJSONRPCParseError "empty request body")) ∧
    (∀ data e, data ≠ "" → unmarshalRequest data = Except.error e →
      ParseJSONRPCRequest data =
        Except.error (NewJSONRPCParseError ("invalid JSON: " ++ e))) ∧
    (∀ req, ValidateJSONRPCRequest req = Except.ok () ↔
      (req.JSONRPC = "2.0" ∧ req.Method ≠ "" ∧ req.ID ≠ Jval.jnull)) ∧
    (∀ data req, unmarshalRequest data = Except.ok req →
      (ParseJSONRPCRequest data = Except.ok req ↔
        ValidateJSONRPCRequest req = Except.ok ()) ∧
      (∀ e, ValidateJSONRPCRequest req = Except.error e →
        ParseJSONRPCRequest data =
          Except.error (NewJSONRPCInvalidRequestError e))) ∧
    (∀ fs, goAnyField fs "id" = Jval.jnull ↔
      (jlookup fs "id" = none ∨ jlookup fs "id" = some Jval.jnull)) ∧
    ((NewJSONRPCParseError "x").Code = -32700 ∧
      (NewJSONRPCInvalidRequestError "x").Code = -32600) ∧
    ParseJSONRPCRequest "null" =
      Except.error (NewJSONRPCInvalidRequestError "jsonrpc must be 2.0") ∧
    ParseJSONRPCRequest
        "\x7b\"jsonrpc\":\"2.0\",\"method\":\"test\",\"id\":1.5\x7d" =
      Except.ok { JSONRPC := "2.0", Method := "test", Params := Jval.jnull,
                  ID := Jval.jnum (mkRat 3 2) } ∧
    ParseJSONRPCRequest
        "\x7b\"jsonrpc\":\"2.0\",\"method\":\"test\"\x7d" =
      Except.error (NewJSONRPCInvalidRequestError "id is required") := by
  refine ⟨rfl, ?_, ?_, ?_, ?_, ⟨rfl, rfl⟩, rfl, rfl, rfl⟩
  · intro data e hne hu
    unfold ParseJSONRPCRequest
    rw [if_neg hne, hu]
  · intro req
    unfold ValidateJSONRPCRequest
    split
    · rename_i h
      simp [h]
    · split
      · rename_i h1 h2
        simp [h2]
      · split
        · rename_i h1 h2 h3
          rw [Jval.isNull_iff] at h3
          simp [h3]
        · rename_i h1 h2 h3
          rw [Jval.isNull_iff] at h3
          simp [not_not.mp h1, h2, h3]
  · intro data req hu
    have hne : data ≠ "" := by
      intro h
      subst h
      rw [show unmarshalRequest "" = Except.error "invalid JSON syntax" from rfl]
        at hu
      exact nomatch hu
    constructor
    · unfold ParseJSONRPCRequest
      rw [if_neg hne, hu]
      cases hv : ValidateJSONRPCRequest req with
      | error e => simp [hv]
      | ok u => cases u; simp [hv]
    · intro e hv
      unfold ParseJSONRPCRequest
      rw [if_neg hne, hu]
      simp [hv]
  · intro fs
    unfold goAnyField
    cases h : jlookup fs "id" with
    | none => simp
    | some v => cases v <;> simp

theorem c5_witness :
    ParseJSONRPCRequest "\x7bnot json" =
      Except.error (NewJSONRPCParseError "invalid JSON: invalid JSON syntax") ∧
    ParseJSONRPCRequest
        "\x7b\"jsonrpc\":\"2.0\",\"method\":\"tasks/get\",\"id\":7\x7d" =
      Except.ok { JSONRPC := "2.0", Method := "tasks/get",
                  Params := Jval.jnull, ID := Jval.jnum 7 } := by
  constructor
  · exact c5_parse_request_taxonomy.2.1 "\x7bnot json" "invalid JSON syntax"
      (by decide) rfl
  · exact ((c5_parse_request_taxonomy.2.2.2.1
      "\x7b\"jsonrpc\":\"2.0\",\"method\":\"tasks/get\",\"id\":7\x7d"
      { JSONRPC := "2.0", Method := "tasks/get", Params := Jval.jnull,
        ID := Jval.jnum 7 } rfl).1).mpr rfl

/-- C2: when the sent message carries no task ID and the repository
save succeeds, OnSendMessage returns without error a task whose ID and
context ID come from the generators, whose state is working, and whose
history is exactly the sent message; the intermediate synthesized task
is in state submitted with an empty history. -/
theorem c2_send_message_new_task (taskNow ctxNow statusNow : Nat)
    (p : MessageSendParams) (w : World)
    (hTID : p.Message.TaskID = none) (hsave : w.saveTaskFails = false) :
    ∃ t w2, OnSendMessage taskNow ctxNow statusNow p w = Except.ok (t, w2) ∧
      t.ID = "task_" ++ toString taskNow ∧
      t.ContextID = generateContextID ctxNow ∧
      t.Status.State = TaskState.working ∧
      t.Status.Timestamp = some statusNow ∧
      t.History = [p.Message] ∧
      (newTaskAt taskNow ctxNow).Status.State = TaskState.submitted ∧
      (newTaskAt taskNow ctxNow).History = [] ∧
      w2.tasks = storePut w.tasks t.ID t ∧
      w2.events = w.events := by
  have e : OnSendMessage taskNow ctxNow statusNow p w =
      Except.ok
        ({ ID := "task_" ++ toString taskNow,
           ContextID := generateContextID ctxNow, Kind := "task",
           History := [p.Message],
           Status := { State := TaskState.working,
                       Timestamp := some statusNow },
           Metadata := [] },
         { w with
            tasks := storePut w.tasks ("task_" ++ toString taskNow)
                       { ID := "task_" ++ toString taskNow,
                         ContextID := generateContextID ctxNow,
                         Kind := "task", History := [p.Message],
                         Status := { State := TaskState.working,
                                     Timestamp := some statusNow },
                         Metadata := [] } }) := by
    unfold OnSendMessage
    rw [hTID]
    unfold sendMessageFinish newTaskAt saveTask
    rw [hsave]
    simp
  exact ⟨_, _, e, rfl, rfl, rfl, rfl, rfl, rfl, rfl, rfl, rfl⟩

theorem c2_witness :
    (OnSendMessage 11 22 33 freshParams emptyWorld).toOption.map
        (fun p => (p.1.ID, p.1.ContextID, p.1.Status.State,
          p.1.History.length)) =
      some ("task_11", "ctx_22", TaskState.working, 1) := by
  obtain ⟨t, w2, h, h1, h2, h3, h4, h5, h6, h7, h8, h9⟩ :=
    c2_send_message_new_task 11 22 33 freshParams emptyWorld rfl rfl
  rw [h]
  simp [Except.toOption, h1, h2, h3, h5, generateContextID]
  exact ⟨rfl, rfl⟩

/-- C3: cancelling any stored task succeeds when the stores are
healthy, leaves the task canceled, and appends a final status-update
event; cancelling the same task a second time also succeeds, leaves it
canceled, and appends a second final event rather than suppressing it. -/
theorem c3_cancel_idempotent (n1 n2 : Nat) (id : String) (w : World)
    (task : Task) (hget : storeGet w.tasks id = some task)
    (hsT : w.saveTaskFails = false) (hsE : w.saveEventFails = false) :
    ∃ t1 w1 t2 w2,
      OnCancelTask n1 { ID := id } w = Except.ok (t1, w1) ∧
      t1.Status.State = TaskState.canceled ∧
      w1.events = w.events ++
        [{ Kind := "status-update", TaskID := t1.ID,
           ContextID := t1.ContextID, Status := t1.Status, Final := true }] ∧
      OnCancelTask n2 { ID := id } w1 = Except.ok (t2, w2) ∧
      t2.Status.State = TaskState.canceled ∧
      w2.events = w1.events ++
        [{ Kind := "status-update", TaskID := t2.ID,
           ContextID := t2.ContextID, Status := t2.Status, Final := true }] := by
  have e1 : OnCancelTask n1 { ID := id } w =
      Except.ok
        ({ task with Status :=
            { State := TaskState.canceled, Timestamp := some n1 } },
         { w with
            tasks := storePut w.tasks task.ID
              { task with Status :=
                  { State := TaskState.canceled, Timestamp := some n1 } },
            events := w.events ++
              [{ Kind := "status-update", TaskID := task.ID,
                 ContextID := task.ContextID,
                 Status := { State := TaskState.canceled,
                             Timestamp := some n1 },
                 Final := true }] }) := by
    unfold OnCancelTask getTask saveTask saveEvent
    rw [hget, hsT, hsE]
    simp
  have hget2 : storeGet
      (storePut w.tasks task.ID
        { task with Status :=
            { State := TaskState.canceled, Timestamp := some n1 } }) id =
      some (if task.ID = id
        then { task with Status :=
                 { State := TaskState.canceled, Timestamp := some n1 } }
        else task) := by
    by_cases hid : task.ID = id
    · rw [if_pos hid]
      rw [← hid] at hget ⊢
      exact storeGet_storePut_self _ _ _
    · rw [if_neg hid]
      rw [storeGet_storePut_ne _ _ _ _ hid]
      exact hget
  have e2 : OnCancelTask n2 { ID := id }
      { w with
        tasks := storePut w.tasks task.ID
          { task with Status :=
              { State := TaskState.canceled, Timestamp := some n1 } },
        events := w.events ++
          [{ Kind := "status-update", TaskID := task.ID,
             ContextID := task.ContextID,
             Status := { State := TaskState.canceled, Timestamp := some n1 },
             Final := true }] } =
      Except.ok
        ({ task with Status :=
            { State := TaskState.canceled, Timestamp := some n2 } },
         { w with
            tasks := storePut
              (storePut w.tasks task.ID
                { task with Status :=
                    { State := TaskState.canceled, Timestamp := some n1 } })
              task.ID
              { task with Status :=
                  { State := TaskState.canceled, Timestamp := some n2 } },
            events := (w.events ++
              [{ Kind := "status-update", TaskID := task.ID,
                 ContextID := task.ContextID,
                 Status := { State := TaskState.canceled,
                             Timestamp := some n1 },
                 Final := true }]) ++
              [{ Kind := "status-update", TaskID := task.ID,
                 ContextID := task.ContextID,
                 Status := { State := TaskState.canceled,
                             Timestamp := some n2 },
                 Final := true }] }) := by
    unfold OnCancelTask getTask saveTask saveEvent
    rw [hget2, hsT, hsE]
    by_cases hid : task.ID = id <;> simp [hid]
  exact ⟨_, _, _, _, e1, rfl, rfl, e2, rfl, rfl⟩

theorem c3_witness :
    ((OnCancelTask 7 { ID := "t1" } sampleWorld).toOption.bind
        (fun p => (OnCancelTask 9 { ID := "t1" } p.2).toOption)).map
      (fun p => (p.1.Status.State, p.2.events.length,
        p.2.events.map TaskStatusUpdateEvent.Final)) =
    some (TaskState.canceled, 2, [true, true]) := by
  obtain ⟨t1, w1, t2, w2, e1, s1, ev1, e2, s2, ev2⟩ :=
    c3_cancel_idempotent 7 9 "t1" sampleWorld sampleTask rfl rfl rfl
  rw [e1]
  simp only [Except.toOption, Option.bind]
  rw [e2]
  simp [ev2, ev1, s2, sampleWorld]

/-- C4: OnGetTask is a pure view — with a positive limit smaller than
the history it returns a copy holding exactly the most recent limit
messages; with no limit, a non-positive limit, or a limit at least the
history length it returns the full history; the world is returned
unchanged in every case, so a subsequent unlimited get still sees the
full history. -/
theorem c4_get_task_view (id : String) (w : World) (task : Task)
    (hget : storeGet w.tasks id = some task) :
    (∀ n : Int, 0 < n → n < (task.History.length : Int) →
      OnGetTask { ID := id, HistoryLength := some n } w =
        Except.ok
          ({ task with History :=
              task.History.drop (task.History.length - n.toNat) }, w)) ∧
    (OnGetTask { ID := id, HistoryLength := none } w =
      Except.ok (task, w)) ∧
    (∀ n : Int, n ≤ 0 →
      OnGetTask { ID := id, HistoryLength := some n } w =
        Except.ok (task, w)) ∧
    (∀ n : Int, (task.History.length : Int) ≤ n →
      OnGetTask { ID := id, HistoryLength := some n } w =
        Except.ok (task, w)) ∧
    (∀ n : Int, 0 < n →
      (task.History.drop (task.History.length - n.toNat)).length =
        min n.toNat task.History.length) := by
  refine ⟨?_, ?_, ?_, ?_, ?_⟩
  · intro n h1 h2
    unfold OnGetTask getTask
    rw [hget]
    simp only [gt_iff_lt]
    rw [if_pos h1, if_pos h2]
  · unfold OnGetTask getTask
    rw [hget]
  · intro n h1
    unfold OnGetTask getTask
    rw [hget]
    simp only [gt_iff_lt]
    rw [if_neg (by omega)]
  · intro n h1
    unfold OnGetTask getTask
    rw [hget]
    simp only [gt_iff_lt]
    by_cases h2 : 0 < n
    · rw [if_pos h2, if_neg (by omega)]
    · rw [if_neg h2]
  · intro n h1
    rw [List.length_drop]
    omega

theorem c4_witness :
    OnGetTask { ID := "t1", HistoryLength := some 2 } sampleWorld =
      Except.ok
        ({ sampleTask with History := [mkMsg 4, mkMsg 5] }, sampleWorld) ∧
    OnGetTask { ID := "t1", HistoryLength := none } sampleWorld =
      Except.ok (sampleTask, sampleWorld) := by
  constructor
  · have h := (c4_get_task_view "t1" sampleWorld sampleTask rfl).1 2
      (by norm_num) (by decide)
    exact h
  · exact (c4_get_task_view "t1" sampleWorld sampleTask rfl).2.1

/-- C10: OnCancelTask changes only the status of the task it persists
and returns — the ID, context ID, kind, history and metadata are those
of the loaded task, and the canceled task is what the store now holds
under its ID. -/
theorem c10_cancel_frame (now : Nat) (id : String) (w : World)
    (task : Task) (hget : storeGet w.tasks id = some task)
    (hsT : w.saveTaskFails = false) :
    ∃ t w2, OnCancelTask now { ID := id } w = Except.ok (t, w2) ∧
      t.ID = task.ID ∧ t.ContextID = task.ContextID ∧ t.Kind = task.Kind ∧
      t.History = task.History ∧ t.Metadata = task.Metadata ∧
      t.Status.State = TaskState.canceled ∧
      storeGet w2.tasks t.ID = some t := by
  cases hsE : w.saveEventFails with
  | false =>
    have e : OnCancelTask now { ID := id } w =
        Except.ok
          ({ task with Status :=
              { State := TaskState.canceled, Timestamp := some now } },
           { w with
              tasks := storePut w.tasks task.ID
                { task with Status :=
                    { State := TaskState.canceled, Timestamp := some now } },
              events := w.events ++
                [{ Kind := "status-update", TaskID := task.ID,
                   ContextID := task.ContextID,
                   Status := { State := TaskState.canceled,
                               Timestamp := some now },
                   Final := true }] }) := by
      unfold OnCancelTask getTask saveTask saveEvent
      rw [hget, hsT, hsE]
      simp
    exact ⟨_, _, e, rfl, rfl, rfl, rfl, rfl, rfl,
      storeGet_storePut_self _ _ _⟩
  | true =>
    have e : OnCancelTask now { ID := id } w =
        Except.ok
          ({ task with Status :=
              { State := TaskState.canceled, Timestamp := some now } },
           { w with
              tasks := storePut w.tasks task.ID
                { task with Status :=
                    { State := TaskState.canceled,
                      Timestamp := some now } } }) := by
      unfold OnCancelTask getTask saveTask saveEvent
      rw [hget, hsT, hsE]
      simp
    exact ⟨_, _, e, rfl, rfl, rfl, rfl, rfl, rfl,
      storeGet_storePut_self _ _ _⟩

theorem c10_witness :
    (OnCancelTask 7 { ID := "t1" } sampleWorld).toOption.map
        (fun p => (p.1.ID, p.1.ContextID, p.1.History.length,
          p.1.Status.State)) =
      some ("t1", "c1", 5, TaskState.canceled) := by
  obtain ⟨t, w2, e, h1, h2, h3, h4, h5, h6, h7⟩ :=
    c10_cancel_frame 7 "t1" sampleWorld sampleTask rfl rfl
  rw [e]
  simp [Except.toOption, h1, h2, h4, h6, sampleTask]

/-- C7 counterexample: cancelling a stored task appends the status
event to the event log but hands nothing to the notification sink —
the lifecycle manager never calls PushNotifier.SendNotification, so
the claimed dispatch after a successful event append does not happen. -/
theorem c7_counterexample :
    (OnCancelTask 5 { ID := "t1" } sampleWorld).toOption.map
      (fun p => (p.2.events.length, p.2.notified.length)) =
    some (1, 0) := rfl

/-- C7 (amended): OnCancelTask persists the canceled task and
best-effort saves the status event, but never attempts a notification:
whenever it succeeds, the notification log is unchanged, so a
notification failure trivially cannot change the result of the
operation. -/
theorem c7_cancel_never_notifies (now : Nat) (id : TaskIDParams)
    (w : World) (t : Task) (w2 : World)
    (h : OnCancelTask now id w = Except.ok (t, w2)) :
    w2.notified = w.notified ∧ t.Status.State = TaskState.canceled ∧
    w2.tasks = storePut w.tasks t.ID t := by
  unfold OnCancelTask getTask saveTask saveEvent at h
  cases hget : storeGet w.tasks id.ID with
  | none => rw [hget] at h; exact nomatch h
  | some task =>
    rw [hget] at h
    cases hsT : w.saveTaskFails with
    | true => rw [hsT] at h; exact nomatch h
    | false =>
      rw [hsT] at h
      cases hsE : w.saveEventFails with
      | true =>
        rw [hsE] at h
        simp only [Bool.false_eq_true, if_false, eq_self_iff_true,
          if_true] at h
        cases h with
        | refl => exact ⟨rfl, rfl, rfl⟩
      | false =>
        rw [hsE] at h
        simp only [Bool.false_eq_true, if_false] at h
        cases h with
        | refl => exact ⟨rfl, rfl, rfl⟩

theorem c7_witness :
    ((OnCancelTask 5 { ID := "t1" } sampleWorld).toOption.map
        (fun p => p.2.notified)) =
      some sampleWorld.notified := by
  have h := c7_cancel_never_notifies 5 { ID := "t1" } sampleWorld
    ({ sampleTask with Status :=
        { State := TaskState.canceled, Timestamp := some 5 } })
    ({ sampleWorld with
        tasks := storePut sampleWorld.tasks "t1"
          { sampleTask with Status :=
              { State := TaskState.canceled, Timestamp := some 5 } },
        events :=
          [{ Kind := "status-update", TaskID := "t1", ContextID := "c1",
             Status := { State := TaskState.canceled, Timestamp := some 5 },
             Final := true }] }) rfl
  rw [show OnCancelTask 5 { ID := "t1" } sampleWorld =
      Except.ok
        ({ sampleTask with Status :=
            { State := TaskState.canceled, Timestamp := some 5 } },
         { sampleWorld with
            tasks := storePut sampleWorld.tasks "t1"
              { sampleTask with Status :=
                  { State := TaskState.canceled, Timestamp := some 5 } },
            events :=
              [{ Kind := "status-update", TaskID := "t1",
                 ContextID := "c1",
                 Status := { State := TaskState.canceled,
                             Timestamp := some 5 },
                 Final := true }] }) from rfl]
  exact congrArg some h.1

/-- C6: for any request body that decodes and validates, the router
maps an unrecognized method to MethodNotFound (-32601) with the method
name as data, a params decoding failure to InvalidParams (-32602), and
any operation failure to a Server Error (-32000) carrying the
underlying message as data; in every case the error response carries
the id of the incoming request. -/
theorem c6_router_error_mapping (clk : Clock) (w : World) (body : String)
    (req : JSONRPCRequest) (hreq : unmarshalRequest body = Except.ok req)
    (hval : ValidateJSONRPCRequest req = Except.ok ()) :
    (req.Method ≠ "tasks/get" → req.Method ≠ "tasks/cancel" →
      req.Method ≠ "message/send" →
      (handleJSONRPC clk body w).1.body =
        NewJSONRPCErrorResponse (-32601) "Method not found"
          (Jval.jstr req.Method) req.ID) ∧
    (∀ e, req.Method = "tasks/get" → getTaskParamsOf req = Except.error e →
      (handleJSONRPC clk body w).1.body =
        NewJSONRPCErrorResponse (-32602) "Invalid params"
          (Jval.jstr e) req.ID) ∧
    (∀ e, req.Method = "tasks/cancel" → cancelParamsOf req = Except.error e →
      (handleJSONRPC clk body w).1.body =
        NewJSONRPCErrorResponse (-32602) "Invalid params"
          (Jval.jstr e) req.ID) ∧
    (∀ e, req.Method = "message/send" → sendParamsOf req = Except.error e →
      (handleJSONRPC clk body w).1.body =
        NewJSONRPCErrorResponse (-32602) "Invalid params"
          (Jval.jstr e) req.ID) ∧
    (∀ p e, req.Method = "tasks/get" → getTaskParamsOf req = Except.ok p →
      OnGetTask p w = Except.error e →
      (handleJSONRPC clk body w).1.body =
        NewJSONRPCErrorResponse (-32000) "Server error"
          (Jval.jstr e) req.ID) ∧
    (∀ p e, req.Method = "tasks/cancel" → cancelParamsOf req = Except.ok p →
      OnCancelTask clk.cancelNow p w = Except.error e →
      (handleJSONRPC clk body w).1.body =
        NewJSONRPCErrorResponse (-32000) "Server error"
          (Jval.jstr e) req.ID) ∧
    (∀ p e, req.Method = "message/send" → sendParamsOf req = Except.ok p →
      OnSendMessage clk.taskNow clk.ctxNow clk.statusNow p w =
        Except.error e →
      (handleJSONRPC clk body w).1.body =
        NewJSONRPCErrorResponse (-32000) "Server error"
          (Jval.jstr e) req.ID) ∧
    (∀ code message data id,
      (NewJSONRPCErrorResponse code message data id).ID = id) := by
  refine ⟨?_, ?_, ?_, ?_, ?_, ?_, ?_, fun _ _ _ _ => rfl⟩
  · intro h1 h2 h3
    simp [handleJSONRPC, hreq, hval, h1, h2, h3, handleJSONRPCError]
  · intro e hm hp
    simp [handleJSONRPC, hreq, hval, hm, handleGetTask, hp, handleJSONRPCError]
  · intro e hm hp
    simp [handleJSONRPC, hreq, hval, hm, handleCancelTask, hp, handleJSONRPCError]
  · intro e hm hp
    simp [handleJSONRPC, hreq, hval, hm, handleSendMessage, hp, handleJSONRPCError]
  · intro p e hm hp herr
    simp [handleJSONRPC, hreq, hval, hm, handleGetTask, hp, herr, handleJSONRPCError]
  · intro p e hm hp herr
    simp [handleJSONRPC, hreq, hval, hm, handleCancelTask, hp, herr, handleJSONRPCError]
  · intro p e hm hp herr
    simp [handleJSONRPC, hreq, hval, hm, handleSendMessage, hp, herr, handleJSONRPCError]

theorem c6_witness :
    (handleJSONRPC sampleClock
        "\x7b\"jsonrpc\":\"2.0\",\"method\":\"tasks/unknown\",\"id\":1\x7d"
        emptyWorld).1.body =
      NewJSONRPCErrorResponse (-32601) "Method not found"
        (Jval.jstr "tasks/unknown") (Jval.jnum 1) ∧
    (handleJSONRPC sampleClock
        "\x7b\"jsonrpc\":\"2.0\",\"method\":\"tasks/get\",\"params\":5,\"id\":2\x7d"
        emptyWorld).1.body =
      NewJSONRPCErrorResponse (-32602) "Invalid params"
        (Jval.jstr "cannot unmarshal params into TaskQueryParams")
        (Jval.jnum 2) ∧
    (handleJSONRPC sampleClock
        "\x7b\"jsonrpc\":\"2.0\",\"method\":\"tasks/get\",\"params\":\x7b\"id\":\"t9\"\x7d,\"id\":3\x7d"
        emptyWorld).1.body =
      NewJSONRPCErrorResponse (-32000) "Server error"
        (Jval.jstr "failed to get task t9: task not found: t9")
        (Jval.jnum 3) := by
  refine ⟨?_, ?_, ?_⟩
  · exact (c6_router_error_mapping sampleClock emptyWorld
      "\x7b\"jsonrpc\":\"2.0\",\"method\":\"tasks/unknown\",\"id\":1\x7d"
      unknownMethodReq rfl rfl).1 (by decide) (by decide) (by decide)
  · exact (c6_router_error_mapping sampleClock emptyWorld
      "\x7b\"jsonrpc\":\"2.0\",\"method\":\"tasks/get\",\"params\":5,\"id\":2\x7d"
      { JSONRPC := "2.0", Method := "tasks/get", Params := Jval.jnum 5,
        ID := Jval.jnum 2 } rfl rfl).2.1
      "cannot unmarshal params into TaskQueryParams" rfl rfl
  · exact (c6_router_error_mapping sampleClock emptyWorld
      "\x7b\"jsonrpc\":\"2.0\",\"method\":\"tasks/get\",\"params\":\x7b\"id\":\"t9\"\x7d,\"id\":3\x7d"
      { JSONRPC := "2.0", Method := "tasks/get",
        Params := Jval.jobj [("id", Jval.jstr "t9")],
        ID := Jval.jnum 3 } rfl rfl).2.2.2.2.1
      { ID := "t9", HistoryLength := none }
      "failed to get task t9: task not found: t9" rfl rfl rfl

end A2A
